import Mathlib

/-!
Verification of the clickstream dashboard core (`src/ott_app_main.py`).

The script loads a tabular event log, filters it by date range / platform /
user type, and derives several summary views, the central one being the
funnel-to-Sankey transformation `create_sankey_data`.  We embed the relevant
parts shallowly: a pandas DataFrame of events becomes a `List Event`, pandas
boolean-mask filtering becomes `List.filter`, Python float arithmetic on the
conversion percentage is modelled exactly by rationals (every value the code
produces here is a ratio of small integers times 100), and `df[col]` column
access with its possible `KeyError` becomes an outcome type per view.
-/

/-- One row of the clickstream table.  `event_date` is the calendar day
(`event_time` truncated), modelled as an integer ordinal; categorical
attributes that pandas may hold as NaN are `Option String`. -/
structure Event where
  event_date : Int
  event_name : String
  platform : Option String
  user_type : Option String
  mp_os : Option String
  af_campaign : Option String
  deriving Repr, DecidableEq

/-- Filter parameters supplied by the UI widgets: inclusive date bounds and
the two optional equality filters (`none` models the "All" sentinel). -/
structure FilterParams where
  start_date : Int
  end_date : Int
  platform : Option String
  user_type : Option String
  deriving Repr, DecidableEq

/-- Embedding of lines 117-123 of `ott_app_main.py`: the date-range mask is
applied first, then (if the widget is not "All") the platform equality mask,
then the user-type equality mask.  In pandas, `NaN == value` is false, hence
the comparison with `some` on the optional attributes. -/
def filtered_df (events : List Event) (p : FilterParams) : List Event :=
  let d1 := events.filter (fun e =>
    decide (p.start_date ≤ e.event_date) && decide (e.event_date ≤ p.end_date))
  let d2 := match p.platform with
    | none => d1
    | some pl => d1.filter (fun e => e.platform == some pl)
  match p.user_type with
  | none => d2
  | some ut => d2.filter (fun e => e.user_type == some ut)

/-- The conjunction of the three predicates, used to characterise
`filtered_df` as a single stable filter. -/
def eventPred (p : FilterParams) (e : Event) : Bool :=
  (decide (p.start_date ≤ e.event_date) && decide (e.event_date ≤ p.end_date))
    && (match p.platform with
        | none => true
        | some pl => e.platform == some pl)
    && (match p.user_type with
        | none => true
        | some ut => e.user_type == some ut)

theorem filtered_df_eq_filter (events : List Event) (p : FilterParams) :
    filtered_df events p = events.filter (eventPred p) := by
  unfold filtered_df eventPred
  cases hpl : p.platform with
  | none =>
    cases hut : p.user_type with
    | none => simp
    | some ut =>
      simp [List.filter_filter, Bool.and_comm, Bool.and_left_comm, Bool.and_assoc]
  | some pl =>
    cases hut : p.user_type with
    | none =>
      simp [List.filter_filter, Bool.and_comm, Bool.and_left_comm, Bool.and_assoc]
    | some ut =>
      simp [List.filter_filter, Bool.and_comm, Bool.and_left_comm, Bool.and_assoc]

/-- The fixed, ordered 10-step funnel (lines 23-34 of the script). -/
def funnel_steps : List String :=
  [ "SUBSCRIPTION-CURATED-PLAN-SELECTION-LAUNCH"
  , "SUBSCRIPTION-CURATED-PLAN-SELECTION-PROCEED"
  , "APP-SELECTION-PAGE"
  , "CHOOSE_YOUR_APP_PROCEED"
  , "SUBSCRIPTION-SUMMARY-LAUNCH"
  , "SUBSCRIPTION-SUMMARY-PROCEED"
  , "PAYMENT-INITIATE"
  , "PAYMENT"
  , "BINGE-SUBSCRIPTION"
  , "SUBSCRIBE-SUCCESS" ]

/-- Embedding of `filtered_df[filtered_df["event_name"] == name].shape[0]`:
the number of rows of the filtered table whose `event_name` equals `name`. -/
def countName (events : List Event) (name : String) : Nat :=
  (events.filter (fun e => e.event_name == name)).length

/-- One emitted Sankey link (the dict appended at lines 45-50).  `value` is
the transferred volume and `percent` the conversion percentage; Python float
arithmetic on these small ratios is modelled exactly by `ℚ`. -/
structure FlowEdge where
  source : String
  target : String
  value : Nat
  percent : ℚ
  deriving Repr, DecidableEq

/-- Default edge used only by positional `getD` lookups in statements. -/
def dummyEdge : FlowEdge :=
  { source := "", target := "", value := 0, percent := 0 }

/-- Embedding of lines 44-50 of the script, computing one edge from the two
adjacent step counts: `conv_percent = (tgt_count / src_count * 100) if
src_count > 0 else 0` and `value = min(src_count, tgt_count)`. -/
def mkEdge (source target : String) (src_count tgt_count : Nat) : FlowEdge :=
  { source := source
  , target := target
  , value := min src_count tgt_count
  , percent := if src_count > 0 then (tgt_count : ℚ) / (src_count : ℚ) * 100 else 0 }

/-- Embedding of `create_sankey_data` (lines 37-51): for `i` in
`range(len(steps) - 1)`, count the events named `steps[i]` and `steps[i+1]`
in the filtered table and append the edge dict.  The script always calls it
with the global `funnel_steps`; we take the step list as an argument so the
short-list behaviour (`range` of a non-positive bound is empty, as is
`List.range (n - 1)` for `n ≤ 1`) is part of the embedding. -/
def create_sankey_data (steps : List String) (events : List Event) : List FlowEdge :=
  (List.range (steps.length - 1)).map (fun i =>
    mkEdge (steps.getD i "") (steps.getD (i + 1) "")
      (countName events (steps.getD i "")) (countName events (steps.getD (i + 1) "")))

theorem create_sankey_data_length (steps : List String) (events : List Event) :
    (create_sankey_data steps events).length = steps.length - 1 := by
  simp [create_sankey_data]

theorem create_sankey_data_getD (steps : List String) (events : List Event)
    (i : Nat) (h : i < steps.length - 1) :
    (create_sankey_data steps events).getD i dummyEdge =
      mkEdge (steps.getD i "") (steps.getD (i + 1) "")
        (countName events (steps.getD i "")) (countName events (steps.getD (i + 1) "")) := by
  simp [create_sankey_data, List.getD, List.getElem?_map, List.getElem?_range, h]

/-- Concrete event used by the test scenarios: every optional attribute
present, date `0`. -/
def mkEv (name : String) : Event :=
  { event_date := 0, event_name := name, platform := some "web"
  , user_type := some "new", mp_os := some "android", af_campaign := some "c1" }

/-- Scenario A of the spec: ten events named `S1`, four named `S2`. -/
def scenarioA : List Event :=
  List.replicate 10 (mkEv "S1") ++ List.replicate 4 (mkEv "S2")

/-- Scenario B of the spec: no `S1` event, five `S2` events. -/
def scenarioB : List Event :=
  List.replicate 5 (mkEv "S2")

/-- Scenario C of the spec: counts S1 = 10, S2 = 6, S3 = 9. -/
def scenarioC : List Event :=
  List.replicate 10 (mkEv "S1") ++ List.replicate 6 (mkEv "S2")
    ++ List.replicate 9 (mkEv "S3")

/-- C1: for every filtered event collection and every adjacent pair
`(step[i], step[i+1])` of the funnel-step sequence, the emitted edge's volume
equals `min(src_count, tgt_count)`, where the counts are the numbers of
filtered events named `step[i]` and `step[i+1]`; in particular the volume is
at most each of the two counts. -/
theorem C1_edge_volume (steps : List String) (events : List Event)
    (i : Nat) (h : i < steps.length - 1) :
    ((create_sankey_data steps events).getD i dummyEdge).value
        = min (countName events (steps.getD i ""))
            (countName events (steps.getD (i + 1) ""))
      ∧ ((create_sankey_data steps events).getD i dummyEdge).value
          ≤ countName events (steps.getD i "")
      ∧ ((create_sankey_data steps events).getD i dummyEdge).value
          ≤ countName events (steps.getD (i + 1) "") := by
  rw [create_sankey_data_getD steps events i h]
  exact ⟨rfl, Nat.min_le_left _ _, Nat.min_le_right _ _⟩

/-- Witness for C1 at Scenario A: the single edge of the two-step funnel
carries volume `min 10 4 = 4`. -/
theorem C1_edge_volume_witness :
    ((create_sankey_data ["S1", "S2"] scenarioA).getD 0 dummyEdge).value
        = min (countName scenarioA "S1") (countName scenarioA "S2")
      ∧ ((create_sankey_data ["S1", "S2"] scenarioA).getD 0 dummyEdge).value
          ≤ countName scenarioA "S1"
      ∧ ((create_sankey_data ["S1", "S2"] scenarioA).getD 0 dummyEdge).value
          ≤ countName scenarioA "S2" :=
  C1_edge_volume ["S1", "S2"] scenarioA 0 (by decide)

/-- C2: whenever the source-step count is positive, the emitted edge's
conversion percentage is exactly `tgt_count / src_count * 100`, with no
clamping. -/
theorem C2_conversion_percent (steps : List String) (events : List Event)
    (i : Nat) (h : i < steps.length - 1)
    (hsrc : 0 < countName events (steps.getD i "")) :
    ((create_sankey_data steps events).getD i dummyEdge).percent
      = (countName events (steps.getD (i + 1) "") : ℚ)
          / (countName events (steps.getD i "") : ℚ) * 100 := by
  rw [create_sankey_data_getD steps events i h]
  simp only [mkEdge]
  rw [if_pos hsrc]

/-- Witness for C2 at Scenario C: the second edge of the `[S1, S2, S3]`
funnel has percentage `9 / 6 * 100`, which is exactly `150` — above 100 and
not clamped. -/
theorem C2_conversion_percent_witness :
    (((create_sankey_data ["S1", "S2", "S3"] scenarioC).getD 1 dummyEdge).percent
        = (countName scenarioC "S3" : ℚ) / (countName scenarioC "S2" : ℚ) * 100)
      ∧ ((create_sankey_data ["S1", "S2", "S3"] scenarioC).getD 1 dummyEdge).percent
          = 150 := by
  have h := C2_conversion_percent ["S1", "S2", "S3"] scenarioC 1 (by decide) (by decide)
  refine ⟨h, ?_⟩
  have h2 : countName scenarioC "S2" = 6 := by decide
  have h3 : countName scenarioC "S3" = 9 := by decide
  have g2 : ["S1", "S2", "S3"].getD 1 "" = "S2" := rfl
  have g3 : ["S1", "S2", "S3"].getD (1 + 1) "" = "S3" := rfl
  rw [h, g2, g3, h3, h2]
  norm_num

/-- C3: whenever the source-step count is zero, the emitted edge's
conversion percentage is exactly zero — the division is guarded by
`if src_count > 0`, and the total function `mkEdge` returns `0` there. -/
theorem C3_division_guard (steps : List String) (events : List Event)
    (i : Nat) (h : i < steps.length - 1)
    (hsrc : countName events (steps.getD i "") = 0) :
    ((create_sankey_data steps events).getD i dummyEdge).percent = 0 := by
  rw [create_sankey_data_getD steps events i h]
  simp only [mkEdge]
  rw [if_neg (by omega)]

/-- Witness for C3 at Scenario B: no `S1` event, five `S2` events — the
edge's percentage is `0`. -/
theorem C3_division_guard_witness :
    ((create_sankey_data ["S1", "S2"] scenarioB).getD 0 dummyEdge).percent = 0 :=
  C3_division_guard ["S1", "S2"] scenarioB 0 (by decide) (by decide)

/-- C5: the builder returns exactly `steps.length - 1` edges, the `i`-th
edge joining `steps[i]` to `steps[i+1]` (same order as the step list), and a
step list of length 0 or 1 yields the empty edge list with no error. -/
theorem C5_edge_sequence (steps : List String) (events : List Event) :
    (create_sankey_data steps events).length = steps.length - 1
      ∧ (∀ i : Nat, i < steps.length - 1 →
          ((create_sankey_data steps events).getD i dummyEdge).source = steps.getD i ""
            ∧ ((create_sankey_data steps events).getD i dummyEdge).target
                = steps.getD (i + 1) "")
      ∧ (steps.length < 2 → create_sankey_data steps events = []) := by
  refine ⟨create_sankey_data_length steps events, ?_, ?_⟩
  · intro i h
    rw [create_sankey_data_getD steps events i h]
    exact ⟨rfl, rfl⟩
  · intro h
    have h1 : steps.length - 1 = 0 := by omega
    simp [create_sankey_data, h1]

theorem eventPred_iff (p : FilterParams) (e : Event) :
    eventPred p e = true ↔
      p.start_date ≤ e.event_date ∧ e.event_date ≤ p.end_date
        ∧ (∀ pl, p.platform = some pl → e.platform = some pl)
        ∧ (∀ ut, p.user_type = some ut → e.user_type = some ut) := by
  obtain ⟨sd, ed, pl, ut⟩ := p
  unfold eventPred
  cases pl <;> cases ut <;> simp [and_assoc]

/-- C4: an event is in the filtered result iff it is an input event whose
date lies in the inclusive range and which passes the optional platform and
user-type equality filters; the result is a sublist of the input (stable
filter, order preserved); and a reversed range (`start_date > end_date`)
yields the empty result rather than an error. -/
theorem C4_filter_engine (events : List Event) (p : FilterParams) :
    (∀ e : Event, e ∈ filtered_df events p ↔
        e ∈ events ∧ p.start_date ≤ e.event_date ∧ e.event_date ≤ p.end_date
          ∧ (∀ pl, p.platform = some pl → e.platform = some pl)
          ∧ (∀ ut, p.user_type = some ut → e.user_type = some ut))
      ∧ (filtered_df events p).Sublist events
      ∧ (p.end_date < p.start_date → filtered_df events p = []) := by
  rw [filtered_df_eq_filter]
  refine ⟨?_, List.filter_sublist events, ?_⟩
  · intro e
    rw [List.mem_filter, eventPred_iff]
  · intro hlt
    rw [List.filter_eq_nil_iff]
    intro e _
    rw [Bool.not_eq_true]
    unfold eventPred
    have hdate : ¬ (p.start_date ≤ e.event_date ∧ e.event_date ≤ p.end_date) := by omega
    simp only [Bool.and_eq_false_iff]
    left; left
    by_cases h1 : p.start_date ≤ e.event_date
    · right; simp [show ¬ e.event_date ≤ p.end_date by omega]
    · left; simp [h1]

/-- Witness for C4: with a reversed date range the filter of a one-event
collection is empty, and the event is not a member of the result. -/
theorem C4_filter_engine_witness :
    filtered_df [mkEv "S1"]
        { start_date := 1, end_date := 0, platform := none, user_type := none } = []
      ∧ ¬ (mkEv "S1" ∈ filtered_df [mkEv "S1"]
            { start_date := 1, end_date := 0, platform := none, user_type := none }) := by
  have h := C4_filter_engine [mkEv "S1"]
    { start_date := 1, end_date := 0, platform := none, user_type := none }
  refine ⟨h.2.2 (by decide), ?_⟩
  rw [h.2.2 (by decide)]
  simp

/-- C10: the Filter Engine is idempotent — filtering its own output again
with the same parameters returns that output unchanged. -/
theorem C10_filter_idempotent (events : List Event) (p : FilterParams) :
    filtered_df (filtered_df events p) p = filtered_df events p := by
  rw [filtered_df_eq_filter, filtered_df_eq_filter, List.filter_filter]
  apply List.filter_congr
  intro e _
  rw [Bool.and_self]

/-- Events whose counts make the seventh funnel edge overshoot: two
`PAYMENT-INITIATE` events and three `PAYMENT` events, so the percentage on
the `PAYMENT-INITIATE → PAYMENT` edge is `3 / 2 * 100 = 150`. -/
def overshootEvents : List Event :=
  List.replicate 2 (mkEv "PAYMENT-INITIATE") ++ List.replicate 3 (mkEv "PAYMENT")

/-- Counterexample to C6: on the fixed ten-step funnel, a filtered event
collection with more target-step than source-step events yields a
conversion percentage of 150, which is not in `[0, 100]` — the code does
not clamp. -/
theorem C6_counterexample :
    ((create_sankey_data funnel_steps overshootEvents).getD 6 dummyEdge).percent = 150
      ∧ ¬ (((create_sankey_data funnel_steps overshootEvents).getD 6 dummyEdge).percent
            ≤ 100) := by
  have h6 : funnel_steps.getD 6 "" = "PAYMENT-INITIATE" := rfl
  have h7 : funnel_steps.getD (6 + 1) "" = "PAYMENT" := rfl
  have hlen : (6 : Nat) < funnel_steps.length - 1 := by decide
  have h := create_sankey_data_getD funnel_steps overshootEvents 6 hlen
  rw [h6, h7] at h
  have hsrc : countName overshootEvents "PAYMENT-INITIATE" = 2 := by decide
  have htgt : countName overshootEvents "PAYMENT" = 3 := by decide
  rw [hsrc, htgt] at h
  have hp : ((create_sankey_data funnel_steps overshootEvents).getD 6 dummyEdge).percent
      = (3 : ℚ) / 2 * 100 := by
    rw [h]
    simp only [mkEdge]
    norm_num
  constructor
  · rw [hp]; norm_num
  · rw [hp]; norm_num

/-- C6 (amended): the volume is a natural number (hence ≥ 0) and the
conversion percentage is ≥ 0 and equals 0 when undefined; it lies in
`[0, 100]` whenever the target count does not exceed the source count, but
may exceed 100 otherwise. -/
theorem C6_edge_bounds (steps : List String) (events : List Event)
    (i : Nat) (h : i < steps.length - 1) :
    0 ≤ ((create_sankey_data steps events).getD i dummyEdge).value
      ∧ 0 ≤ ((create_sankey_data steps events).getD i dummyEdge).percent
      ∧ (countName events (steps.getD i "") = 0 →
          ((create_sankey_data steps events).getD i dummyEdge).percent = 0)
      ∧ (countName events (steps.getD (i + 1) "") ≤ countName events (steps.getD i "") →
          ((create_sankey_data steps events).getD i dummyEdge).percent ≤ 100) := by
  rw [create_sankey_data_getD steps events i h]
  simp only [mkEdge]
  refine ⟨Nat.zero_le _, ?_, ?_, ?_⟩
  · by_cases hs : 0 < countName events (steps.getD i "")
    · rw [if_pos hs]; positivity
    · rw [if_neg hs]
  · intro hz
    rw [if_neg (by omega)]
  · intro hts
    by_cases hs : 0 < countName events (steps.getD i "")
    · rw [if_pos hs]
      have hs0 : (0 : ℚ) < (countName events (steps.getD i "") : ℚ) := by
        exact_mod_cast hs
      have h1 : (countName events (steps.getD (i + 1) "") : ℚ)
          / (countName events (steps.getD i "") : ℚ) ≤ 1 := by
        rw [div_le_one hs0]
        exact_mod_cast hts
      calc (countName events (steps.getD (i + 1) "") : ℚ)
            / (countName events (steps.getD i "") : ℚ) * 100
          ≤ 1 * 100 := by
            apply mul_le_mul_of_nonneg_right h1
            norm_num
        _ = 100 := by norm_num
    · rw [if_neg hs]
      norm_num

/-- Witness for the amended C6 at Scenario A: the edge's percentage is
nonnegative and, since 4 ≤ 10, at most 100. -/
theorem C6_edge_bounds_witness :
    0 ≤ ((create_sankey_data ["S1", "S2"] scenarioA).getD 0 dummyEdge).percent
      ∧ ((create_sankey_data ["S1", "S2"] scenarioA).getD 0 dummyEdge).percent ≤ 100 :=
  ⟨(C6_edge_bounds ["S1", "S2"] scenarioA 0 (by decide)).2.1,
   (C6_edge_bounds ["S1", "S2"] scenarioA 0 (by decide)).2.2.2 (by decide)⟩

/-- Embedding of lines 129-133: restrict the filtered table to rows whose
`event_name` is a funnel step, take `value_counts()` of the name column, and
`reindex(funnel_steps)`.  A pandas `value_counts` series contains exactly the
names that occur (each with count ≥ 1), and `reindex` without a fill value
yields NaN for labels not in the series; NaN is modelled as `none`.  The
result is one `(step, count?)` row per funnel step, in funnel order. -/
def funnel_counts (events : List Event) (steps : List String) : List (String × Option Nat) :=
  let funnel_df := events.filter (fun e => steps.contains e.event_name)
  steps.map (fun s =>
    let c := (funnel_df.filter (fun e => e.event_name == s)).length
    (s, if 0 < c then some c else none))

theorem funnel_counts_getD (events : List Event) (steps : List String) (i : Nat)
    (h : i < steps.length) :
    (funnel_counts events steps).getD i ("", some 0)
      = (steps.getD i "",
          if 0 < countName (events.filter (fun e => steps.contains e.event_name))
              (steps.getD i "")
            then some (countName (events.filter (fun e => steps.contains e.event_name))
                (steps.getD i ""))
            else none) := by
  simp [funnel_counts, countName, List.getD, List.getElem?_map,
    List.getElem?_eq_getElem h]

theorem countName_filter_contains (events : List Event) (steps : List String)
    (s : String) (hs : s ∈ steps) :
    countName (events.filter (fun e => steps.contains e.event_name)) s
      = countName events s := by
  unfold countName
  rw [List.filter_filter]
  congr 1
  apply List.filter_congr
  intro e _
  by_cases he : e.event_name = s
  · simp [he, hs]
  · simp [he]

/-- Counterexample to C8: with no filtered events at all, every funnel step
is absent, and the first row of the reindexed funnel bar table pairs the
step name with a null (NaN) count, not with count 0. -/
theorem C8_counterexample :
    (funnel_counts [] funnel_steps).getD 0 ("", some 0)
        = ("SUBSCRIPTION-CURATED-PLAN-SELECTION-LAUNCH", none)
      ∧ ((funnel_counts [] funnel_steps).getD 0 ("", some 0)).2 ≠ some 0 := by
  decide

/-- C8 (amended): the funnel bar view emits one row per funnel step in the
fixed funnel order; a step occurring in the filtered events carries its
(positive) count, while a step absent from the filtered events appears with
a null (NaN) count — not count 0 as the claim states, because the
`reindex` has no fill value. -/
theorem C8_funnel_bar (events : List Event) (steps : List String) (i : Nat)
    (h : i < steps.length) :
    (funnel_counts events steps).length = steps.length
      ∧ ((funnel_counts events steps).getD i ("", some 0)).1 = steps.getD i ""
      ∧ (countName events (steps.getD i "") = 0 →
          ((funnel_counts events steps).getD i ("", some 0)).2 = none)
      ∧ (0 < countName events (steps.getD i "") →
          ((funnel_counts events steps).getD i ("", some 0)).2
            = some (countName events (steps.getD i ""))) := by
  have hmem : steps.getD i "" ∈ steps := by
    rw [List.getD_eq_getElem steps "" h]
    exact List.getElem_mem h
  have hc := countName_filter_contains events steps (steps.getD i "") hmem
  rw [funnel_counts_getD events steps i h, hc]
  refine ⟨by simp [funnel_counts], rfl, ?_, ?_⟩
  · intro hz
    simp only
    rw [if_neg (by omega)]
  · intro hpos
    simp only
    rw [if_pos hpos]

/-- Witness for the amended C8 on the real funnel: with a single `PAYMENT`
event, the first funnel step (absent) gets a null count and the eighth step
(`PAYMENT`) gets its count. -/
theorem C8_funnel_bar_witness :
    ((funnel_counts [mkEv "PAYMENT"] funnel_steps).getD 0 ("", some 0)).2 = none
      ∧ ((funnel_counts [mkEv "PAYMENT"] funnel_steps).getD 7 ("", some 0)).2
          = some (countName [mkEv "PAYMENT"] (funnel_steps.getD 7 "")) :=
  ⟨(C8_funnel_bar [mkEv "PAYMENT"] funnel_steps 0 (by decide)).2.2.1 (by decide),
   (C8_funnel_bar [mkEv "PAYMENT"] funnel_steps 7 (by decide)).2.2.2 (by decide)⟩

/-- Embedding of one entry of a pandas `value_counts()` over a possibly-null
categorical column: the number of rows whose column value is the non-null
value `v`.  Null rows never match (pandas drops NaN before counting). -/
def countVal (rows : List Event) (col : Event → Option String) (v : String) : Nat :=
  (rows.filter (fun e => col e == some v)).length

/-- Embedding of lines 227-228: `col_counts` is computed as
`df_copy[selected_col].value_counts()...` — from `df_copy`, the full loaded
dataset, even though the filter parameters and `filtered_df` are in scope at
that point of the script, so the filter parameter is unused.  This gives the
per-value count backing the explorer bar chart. -/
def col_counts_val (df_copy : List Event) (_p : FilterParams)
    (col : Event → Option String) (v : String) : Nat :=
  countVal df_copy col v

/-- Counterexample to C7: one event dated 0 with OS value `android`; the
filter restricts to the date range `[1, 1]`, so the filtered collection has
no `android` row, yet the explorer still reports count 1 — its counts track
the full dataset, not the filtered one. -/
theorem C7_counterexample :
    col_counts_val [mkEv "X"] ⟨1, 1, none, none⟩ Event.mp_os "android" = 1
      ∧ countVal (filtered_df [mkEv "X"] ⟨1, 1, none, none⟩) Event.mp_os "android" = 0
      ∧ col_counts_val [mkEv "X"] ⟨1, 1, none, none⟩ Event.mp_os "android"
          ≠ countVal (filtered_df [mkEv "X"] ⟨1, 1, none, none⟩) Event.mp_os "android" := by
  refine ⟨by decide, by decide, by decide⟩

/-- C7 (amended): the device attribute explorer is an aggregation over the
full unfiltered dataset: each of its per-value counts equals the
full-dataset count of that value and is unchanged by any change of the
filter parameters. -/
theorem C7_explorer_unfiltered (df : List Event) (p q : FilterParams)
    (col : Event → Option String) (v : String) :
    col_counts_val df p col v = countVal df col v
      ∧ col_counts_val df p col v = col_counts_val df q col v :=
  ⟨rfl, rfl⟩

/-- Outcome of attempting to render one dashboard view against a dataset
schema: pandas raises `KeyError` when a missing column is accessed without a
guard, so a view either renders, is skipped by an explicit presence check,
or raises. -/
inductive ViewOutcome where
  | rendered
  | skipped
  | raised
  deriving Repr, DecidableEq

/-- Embedding of lines 181-184: the OS-distribution pie accesses
`filtered_df["mp_os"]` with no presence check, so a schema without `mp_os`
raises instead of skipping the view. -/
def device_summary (cols : List String) : ViewOutcome :=
  if cols.contains "mp_os" then ViewOutcome.rendered else ViewOutcome.raised

/-- Embedding of lines 188-200: the payment sunburst is guarded by
`if "payment_method" in filtered_df.columns and "payment_status" in
filtered_df.columns`, so a missing column skips the view without error. -/
def payment_summary (cols : List String) : ViewOutcome :=
  if cols.contains "payment_method" && cols.contains "payment_status"
    then ViewOutcome.rendered else ViewOutcome.skipped

/-- Embedding of lines 203-214: the pack view is guarded on `pack_name`
only; when `pack_name` is present its body accesses `pack_price`
unguarded. -/
def pack_summary (cols : List String) : ViewOutcome :=
  if cols.contains "pack_name"
    then (if cols.contains "pack_price" then ViewOutcome.rendered
          else ViewOutcome.raised)
    else ViewOutcome.skipped

/-- Embedding of lines 164-177: the campaign view groups on `af_campaign`
with no presence check. -/
def campaign_summary (cols : List String) : ViewOutcome :=
  if cols.contains "af_campaign" then ViewOutcome.rendered else ViewOutcome.raised

/-- The candidate column list of the device attribute explorer
(lines 218-221 of the script). -/
def columns_to_visualize : List String :=
  ["mp_brand", "mp_browser", "mp_carrier", "mp_city", "mp_country_code",
   "mp_manufacturer", "mp_model", "mp_os", "mp_os_version", "mp_region", "mp_wifi"]

/-- Embedding of line 222,
`columns_to_visualize = [c for c in columns_to_visualize if c in df_copy.columns]`:
the explorer offers only the candidate columns present in the loaded
dataset, so it never accesses an absent column. -/
def explorer_columns (cols : List String) : List String :=
  columns_to_visualize.filter (fun c => cols.contains c)

/-- Schema holding every column the dashboard touches except `mp_os`. -/
def schemaWithoutOs : List String :=
  ["event_time", "event_date", "event_name", "platform", "user_type",
   "af_campaign", "payment_method", "payment_status", "pack_name", "pack_price"]

/-- Counterexample to C9: with `mp_os` absent from the schema, the
OS-distribution view raises rather than being skipped — its column access
is not gated by a presence check. -/
theorem C9_counterexample :
    device_summary schemaWithoutOs = ViewOutcome.raised
      ∧ device_summary schemaWithoutOs ≠ ViewOutcome.skipped := by
  decide

/-- C9 (amended): only some views are gated by presence checks.  The
payment view and the pack view skip without error when their guard columns
are absent, and the device-attribute explorer restricts its column list to
the columns present in the dataset; but the OS-distribution view is
ungated — it raises when `mp_os` is absent — and the pack guard does not
cover `pack_price`, which raises when `pack_name` is present but
`pack_price` absent. -/
theorem C9_view_gating (cols : List String) :
    (¬ (cols.contains "payment_method" = true ∧ cols.contains "payment_status" = true) →
        payment_summary cols = ViewOutcome.skipped)
      ∧ (cols.contains "pack_name" = false → pack_summary cols = ViewOutcome.skipped)
      ∧ (cols.contains "mp_os" = true → device_summary cols = ViewOutcome.rendered)
      ∧ (cols.contains "mp_os" = false → device_summary cols = ViewOutcome.raised)
      ∧ (cols.contains "pack_name" = true → cols.contains "pack_price" = false →
          pack_summary cols = ViewOutcome.raised)
      ∧ (∀ c, c ∈ explorer_columns cols → cols.contains c = true) := by
  refine ⟨?_, ?_, ?_, ?_, ?_, ?_⟩
  · intro hpm
    unfold payment_summary
    rw [if_neg]
    simp only [Bool.and_eq_true]
    exact hpm
  · intro hpn
    unfold pack_summary
    rw [if_neg]
    simp_all
  · intro hos
    unfold device_summary
    rw [if_pos hos]
  · intro hos
    unfold device_summary
    rw [if_neg]
    simp_all
  · intro hpn hpp
    unfold pack_summary
    rw [if_pos hpn, if_neg]
    simp_all
  · intro c hc
    exact (List.mem_filter.mp hc).2

/-- Witness for the amended C9: a schema with only `mp_os` skips the
payment view and renders the OS view; a schema with only `pack_name`
raises in the pack view; every column the explorer retains (here `mp_os`,
the only surviving candidate) is present in the schema. -/
theorem C9_view_gating_witness :
    payment_summary ["mp_os"] = ViewOutcome.skipped
      ∧ device_summary ["mp_os"] = ViewOutcome.rendered
      ∧ pack_summary ["pack_name"] = ViewOutcome.raised
      ∧ (["mp_os"] : List String).contains "mp_os" = true :=
  ⟨(C9_view_gating ["mp_os"]).1 (by decide),
   (C9_view_gating ["mp_os"]).2.2.1 (by decide),
   (C9_view_gating ["pack_name"]).2.2.2.2.1 (by decide) (by decide),
   (C9_view_gating ["mp_os"]).2.2.2.2.2 "mp_os" (by decide)⟩

/-- Witness for C5: a one-step list yields no edge, and at Scenario A the
two-step list yields exactly one edge from `S1` to `S2`. -/
theorem C5_edge_sequence_witness :
    create_sankey_data ["S1"] scenarioA = []
      ∧ (create_sankey_data ["S1", "S2"] scenarioA).length = 1
      ∧ ((create_sankey_data ["S1", "S2"] scenarioA).getD 0 dummyEdge).source = "S1"
      ∧ ((create_sankey_data ["S1", "S2"] scenarioA).getD 0 dummyEdge).target = "S2" :=
  ⟨(C5_edge_sequence ["S1"] scenarioA).2.2 (by decide),
   (C5_edge_sequence ["S1", "S2"] scenarioA).1,
   ((C5_edge_sequence ["S1", "S2"] scenarioA).2.1 0 (by decide)).1,
   ((C5_edge_sequence ["S1", "S2"] scenarioA).2.1 0 (by decide)).2⟩
